import Mathlib

/-!
Shallow embedding of the planetgen mesh-construction core
(src/planetgen/src/geometry.rs and src/planetgen/src/icosphere.rs).

Modelling conventions:
* f32 scalars are idealised as real numbers; f32 trigonometric operations
  become the corresponding Real functions.
* An Rc-shared Vert is modelled by the stable slot index of the vertex in
  the mesh's vertex store: an edge or face stores the slot of each vertex
  it references and observes the vertex's live state by looking the slot up
  in the store.  Since the topology (which slot each reference points at)
  never changes after construction, this lookup is observationally the same
  as dereferencing the shared pointer.
* RefCell mutation (Vert::set_coords) becomes a functional update of the
  store that replaces the coordinates of the vertex in one slot.
* A panicking construction (the assert in Icosphere::new) is modelled as an
  Option-valued constructor returning none on the panicking inputs.
-/

namespace PlanetGen

/-- Vert from geometry.rs: a stable integer index plus three mutable f32
coordinates (the RefCell wrappers are represented by the coordinates being
updatable through Vert.set_coords). -/
structure Vert where
  index : ℕ
  x : ℝ
  y : ℝ
  z : ℝ

/-- Rust derive(Default) for Vert: index 0, coordinates 0.0. -/
instance : Inhabited Vert := ⟨⟨0, 0, 0, 0⟩⟩

/-- Vert::new from geometry.rs. -/
def Vert.new (index : ℕ) (x y z : ℝ) : Vert := ⟨index, x, y, z⟩

/-- Vert::set_coords from geometry.rs: replace the three coordinates,
keeping the index. -/
def Vert.set_coords (v : Vert) (x y z : ℝ) : Vert :=
  { v with x := x, y := y, z := z }

/-- Vert::get_index from geometry.rs. -/
def Vert.get_index (v : Vert) : ℕ := v.index

/-- A reference Rc Vert held by an edge or face, modelled as the slot of
the vertex in the mesh's vertex store. -/
abbrev VertRef := ℕ

/-- A reference Rc Edge held by a face, modelled as the slot of the edge in
the mesh's edge store. -/
abbrev EdgeRef := ℕ

/-- Edge from geometry.rs: an unordered pair of shared vertex references. -/
structure Edge where
  endpoint : VertRef × VertRef

instance : Inhabited Edge := ⟨⟨(0, 0)⟩⟩

/-- Edge::new from geometry.rs: clones the Rc for verts at the two given
slots, i.e. records the two slots. -/
def Edge.new (endpoints : ℕ × ℕ) : Edge := ⟨endpoints⟩

/-- Face from geometry.rs: three shared corner-vertex references and three
shared bounding-edge references. -/
structure Face where
  corner : VertRef × VertRef × VertRef
  edge : EdgeRef × EdgeRef × EdgeRef

instance : Inhabited Face := ⟨⟨(0, 0, 0), (0, 0, 0)⟩⟩

/-- Face::new from geometry.rs: clones the Rc for the verts at the three
corner slots and the edges at the three side slots. -/
def Face.new (corners : ℕ × ℕ × ℕ) (sides : ℕ × ℕ × ℕ) : Face :=
  ⟨corners, sides⟩

/-- Icosahedron from geometry.rs: radius plus the canonical stores of 12
vertices, 30 edges and 20 faces. -/
structure Icosahedron where
  radius : ℝ
  verts : List Vert
  edges : List Edge
  faces : List Face

/-- The closure body of the vertex array::from_fn in Icosahedron::new
(geometry.rs lines 106-139), for slot i.  The final branch is the source's
panic arm, unreachable for i < 12. -/
noncomputable def icoVert (radius : ℝ) (i : ℕ) : Vert :=
  let lat_angle : ℝ := Real.arctan 0.5
  let long_angle : ℝ := (36 : ℝ) * (Real.pi / 180)
  let top_ring_height : ℝ := radius * Real.sin lat_angle
  let top_ring_radius : ℝ := radius * Real.cos lat_angle
  if i = 0 then
    -- top
    Vert.new i 0 0 radius
  else if i = 11 then
    -- bottom
    Vert.new i 0 0 (-radius)
  else if 1 ≤ i ∧ i ≤ 5 then
    -- top ring, slots 1 to 5
    Vert.new i
      (top_ring_radius * Real.cos (((i - 1 : ℕ) : ℝ) * 2 * long_angle))
      (top_ring_radius * Real.sin (((i - 1 : ℕ) : ℝ) * 2 * long_angle))
      top_ring_height
  else if 6 ≤ i ∧ i ≤ 10 then
    -- bottom ring, slots 6 to 10
    Vert.new i
      (top_ring_radius * Real.cos ((((i - 6 : ℕ) : ℝ) * 2 - 1) * long_angle))
      (top_ring_radius * Real.sin ((((i - 6 : ℕ) : ℝ) * 2 - 1) * long_angle))
      (-top_ring_height)
  else
    -- source panics here; unreachable since from_fn only passes i < 12
    Vert.new i 0 0 0

/-- The closure body of the edge array::from_fn in Icosahedron::new
(geometry.rs lines 142-181), for slot i.  Every arm of the source's match
constructs Edge::new with endpoints (0, 1); the grouping comments below are
the source's own.  The final branch is the source's panic arm, unreachable
for i < 30. -/
def icoEdge (i : ℕ) : Edge :=
  match i with
  -- add top edges connecting to top vertex
  | 0 => Edge.new (0, 1)
  | 1 => Edge.new (0, 1)
  | 2 => Edge.new (0, 1)
  | 3 => Edge.new (0, 1)
  | 4 => Edge.new (0, 1)
  -- add top ring of edges
  | 5 => Edge.new (0, 1)
  | 6 => Edge.new (0, 1)
  | 7 => Edge.new (0, 1)
  | 8 => Edge.new (0, 1)
  | 9 => Edge.new (0, 1)
  -- add middle zigzag edges
  | 10 => Edge.new (0, 1)
  | 11 => Edge.new (0, 1)
  | 12 => Edge.new (0, 1)
  | 13 => Edge.new (0, 1)
  | 14 => Edge.new (0, 1)
  | 15 => Edge.new (0, 1)
  | 16 => Edge.new (0, 1)
  | 17 => Edge.new (0, 1)
  | 18 => Edge.new (0, 1)
  | 19 => Edge.new (0, 1)
  -- add bottom ring of edges
  | 20 => Edge.new (0, 1)
  | 21 => Edge.new (0, 1)
  | 22 => Edge.new (0, 1)
  | 23 => Edge.new (0, 1)
  | 24 => Edge.new (0, 1)
  -- add bottom edges connecting to bottom vertex
  | 25 => Edge.new (0, 1)
  | 26 => Edge.new (0, 1)
  | 27 => Edge.new (0, 1)
  | 28 => Edge.new (0, 1)
  | 29 => Edge.new (0, 1)
  -- source panics here; unreachable since from_fn only passes i < 30
  | _ => Edge.new (0, 1)

/-- The closure body of the face array::from_fn in Icosahedron::new
(geometry.rs lines 184-211), for slot i: corner slots then side slots.
The final branch is the source's panic arm, unreachable for i < 20. -/
def icoFace (i : ℕ) : Face :=
  match i with
  -- top faces
  | 0 => Face.new (2, 1, 0) (0, 1, 5)
  | 1 => Face.new (3, 2, 0) (1, 2, 6)
  | 2 => Face.new (4, 3, 0) (2, 3, 7)
  | 3 => Face.new (5, 4, 0) (3, 4, 8)
  | 4 => Face.new (1, 5, 0) (4, 0, 9)
  -- ring faces
  | 5 => Face.new (7, 6, 1) (20, 10, 11)
  | 6 => Face.new (7, 1, 2) (5, 11, 12)
  | 7 => Face.new (8, 7, 2) (21, 12, 13)
  | 8 => Face.new (8, 2, 3) (6, 13, 14)
  | 9 => Face.new (9, 8, 3) (22, 14, 15)
  | 10 => Face.new (9, 3, 4) (7, 15, 16)
  | 11 => Face.new (10, 9, 4) (23, 16, 17)
  | 12 => Face.new (10, 4, 5) (8, 17, 18)
  | 13 => Face.new (6, 10, 5) (24, 18, 19)
  | 14 => Face.new (6, 5, 1) (9, 19, 10)
  -- bottom faces
  | 15 => Face.new (6, 7, 11) (25, 26, 20)
  | 16 => Face.new (7, 8, 11) (26, 27, 21)
  | 17 => Face.new (8, 9, 11) (27, 28, 22)
  | 18 => Face.new (9, 10, 11) (28, 29, 23)
  | 19 => Face.new (10, 6, 11) (29, 25, 24)
  -- source panics here; unreachable since from_fn only passes i < 20
  | _ => Face.new (0, 0, 0) (0, 0, 0)

/-- Icosahedron::new from geometry.rs: build the three stores by
array::from_fn over 12, 30 and 20 slots. -/
noncomputable def Icosahedron.new (radius : ℝ) : Icosahedron :=
  { radius := radius
    verts := (List.range 12).map (icoVert radius)
    edges := (List.range 30).map icoEdge
    faces := (List.range 20).map icoFace }

/-- Dereference a shared vertex reference against the mesh's store. -/
def Icosahedron.vertAt (m : Icosahedron) (r : VertRef) : Vert :=
  m.verts.getD r default

/-- Dereference a shared edge reference against the mesh's store. -/
def Icosahedron.edgeAt (m : Icosahedron) (r : EdgeRef) : Edge :=
  m.edges.getD r default

/-- The live position a holder of a shared vertex reference observes. -/
def Icosahedron.vertPosAt (m : Icosahedron) (r : VertRef) : ℝ × ℝ × ℝ :=
  ((m.vertAt r).x, (m.vertAt r).y, (m.vertAt r).z)

/-- Modelled from the spec: the graphics module is not under src/, only its
use sites are.  Per section 6 the vertex attribute record carries a
position and a color (get_vertex_buffer in geometry.rs fills exactly those
two fields), and the index primitive is an unsigned integer, modelled ℕ. -/
structure Vertex where
  position : ℝ × ℝ × ℝ
  color : ℝ × ℝ × ℝ

/-- Icosahedron::get_vertex_buffer from geometry.rs: map every vertex, in
store order, to its attribute record with live position and color white. -/
def Icosahedron.get_vertex_buffer (m : Icosahedron) : List Vertex :=
  m.verts.map (fun v => { position := (v.x, v.y, v.z), color := (1, 1, 1) })

/-- Icosahedron::get_index_buffer from geometry.rs: flat_map every face, in
store order, to the indices read through its three corner references. -/
def Icosahedron.get_index_buffer (m : Icosahedron) : List ℕ :=
  m.faces.flatMap (fun f =>
    [(m.vertAt f.corner.1).get_index,
     (m.vertAt f.corner.2.1).get_index,
     (m.vertAt f.corner.2.2).get_index])

/-- A caller's mutation of one shared vertex, verts slot i, through
Vert::set_coords: replace that vertex's coordinates in place.  List.set
leaves the store unchanged when i is out of range. -/
def Icosahedron.setCoords (m : Icosahedron) (i : ℕ) (x y z : ℝ) : Icosahedron :=
  { m with verts := m.verts.set i ((m.verts.getD i default).set_coords x y z) }

/-- A sequence of vertex mutations applied in order: each entry names a
verts slot and the new coordinates passed to Vert::set_coords. -/
def Icosahedron.applyMutations (m : Icosahedron) : List (ℕ × ℝ × ℝ × ℝ) → Icosahedron
  | [] => m
  | (i, x, y, z) :: rest => (m.setCoords i x y z).applyMutations rest

/-- Rust get_vertex_buffer takes a shared borrow and performs only RefCell
reads, never a write; as an explicit state transformer the call therefore
pairs its result with the receiver state it leaves behind, unchanged. -/
def Icosahedron.get_vertex_buffer_run (m : Icosahedron) : List Vertex × Icosahedron :=
  (m.get_vertex_buffer, m)

/-- Rust get_index_buffer likewise only reads; as an explicit state
transformer it pairs its result with the unchanged receiver state. -/
def Icosahedron.get_index_buffer_run (m : Icosahedron) : List ℕ × Icosahedron :=
  (m.get_index_buffer, m)

/-- Point from icosphere.rs: a u16 index and a Vec3 position. -/
structure Point where
  index : ℕ
  pos : ℝ × ℝ × ℝ

/-- The closure body of the vertex array::from_fn in Icosphere::new
(icosphere.rs lines 34-55), for slot i: the same placement formulas as
geometry.rs.  The final branch is the source's panic arm, unreachable for
i < 12. -/
noncomputable def icospherePoint (radius : ℝ) (i : ℕ) : Point :=
  let lat_angle : ℝ := Real.arctan 0.5
  let long_angle : ℝ := (36 : ℝ) * (Real.pi / 180)
  let top_ring_height : ℝ := radius * Real.sin lat_angle
  let top_ring_radius : ℝ := radius * Real.cos lat_angle
  if i = 0 then ⟨i, (0, 0, radius)⟩
  else if i = 11 then ⟨i, (0, 0, -radius)⟩
  else if 1 ≤ i ∧ i ≤ 5 then
    ⟨i, (top_ring_radius * Real.cos (((i - 1 : ℕ) : ℝ) * 2 * long_angle),
         top_ring_radius * Real.sin (((i - 1 : ℕ) : ℝ) * 2 * long_angle),
         top_ring_height)⟩
  else if 6 ≤ i ∧ i ≤ 10 then
    ⟨i, (top_ring_radius * Real.cos ((((i - 6 : ℕ) : ℝ) * 2 - 1) * long_angle),
         top_ring_radius * Real.sin ((((i - 6 : ℕ) : ℝ) * 2 - 1) * long_angle),
         -top_ring_height)⟩
  else
    -- source panics here; unreachable since from_fn only passes i < 12
    ⟨i, (0, 0, 0)⟩

/-- Icosphere from icosphere.rs: the vector of base vertices. -/
structure Icosphere where
  vertices : List Point

/-- Icosphere::new from icosphere.rs: the assert that the radius is
positive panics for radius ≤ 0, modelled as none; otherwise the 12 base
points are built by array::from_fn. -/
noncomputable def Icosphere.new (radius : ℝ) : Option Icosphere :=
  if 0 < radius then some ⟨(List.range 12).map (icospherePoint radius)⟩ else none

/-- Unordered view of an endpoint or corner pair: smaller slot first. -/
def normPair (p : ℕ × ℕ) : ℕ × ℕ := (min p.1 p.2, max p.1 p.2)

/-- The three unordered endpoint pairs, as vertex slots, of the edges a
face references. -/
def Icosahedron.faceEdgePairs (m : Icosahedron) (f : Face) : List (ℕ × ℕ) :=
  [normPair (m.edgeAt f.edge.1).endpoint,
   normPair (m.edgeAt f.edge.2.1).endpoint,
   normPair (m.edgeAt f.edge.2.2).endpoint]

/-- The three pairwise combinations of a face's corner vertex indices,
each read through the shared corner reference. -/
def Icosahedron.faceCornerPairs (m : Icosahedron) (f : Face) : List (ℕ × ℕ) :=
  [normPair ((m.vertAt f.corner.1).index, (m.vertAt f.corner.2.1).index),
   normPair ((m.vertAt f.corner.2.1).index, (m.vertAt f.corner.2.2).index),
   normPair ((m.vertAt f.corner.1).index, (m.vertAt f.corner.2.2).index)]

/-- C1's property at one face: the multiset of the three referenced edges'
endpoint sets equals the three pairwise combinations of the face's three
corners. -/
def Icosahedron.faceEdgesMatchCorners (m : Icosahedron) (f : Face) : Prop :=
  (m.faceEdgePairs f).Perm (m.faceCornerPairs f)

instance (m : Icosahedron) (f : Face) : Decidable (m.faceEdgesMatchCorners f) :=
  inferInstanceAs (Decidable (List.Perm _ _))

/-- C2's claimed band structure of the 30 edges, written from the claim's
words.  Bands: edges 0-4 north pole to upper-ring vertex k+1; edges 5-9
consecutive cyclic upper-ring pairs; edges 10-19 between one upper-ring
and one lower-ring vertex (the claim's alternating belt, weakened here to
that membership condition); edges 20-24 consecutive cyclic lower-ring
pairs; edges 25-29 south pole to lower-ring vertex k+6.  The full claim
implies this predicate, so refuting it refutes the claim. -/
def edgeBandClaim (m : Icosahedron) : Prop :=
  (∀ k ∈ List.range 5, normPair (m.edgeAt k).endpoint = (0, k + 1)) ∧
  (∀ k ∈ List.range 5,
    normPair (m.edgeAt (5 + k)).endpoint = normPair (k + 1, (k + 1) % 5 + 1)) ∧
  (∀ k ∈ List.range 10,
    1 ≤ (normPair (m.edgeAt (10 + k)).endpoint).1 ∧
    (normPair (m.edgeAt (10 + k)).endpoint).1 ≤ 5 ∧
    6 ≤ (normPair (m.edgeAt (10 + k)).endpoint).2 ∧
    (normPair (m.edgeAt (10 + k)).endpoint).2 ≤ 10) ∧
  (∀ k ∈ List.range 5,
    normPair (m.edgeAt (20 + k)).endpoint = normPair (k + 6, (k + 1) % 5 + 6)) ∧
  (∀ k ∈ List.range 5, normPair (m.edgeAt (25 + k)).endpoint = (k + 6, 11))

/-- C4's claimed vertex placement, written from the claim's words with
s = 36 degrees in radians, R = radius * cos (atan 0.5) and
H = radius * sin (atan 0.5): vertex 0 at the north pole, vertex 11 at the
south pole, vertices 1-5 on the upper ring at angle k*2*s with k = i-1,
vertices 6-10 on the lower ring at angle (k*2 - 1)*s with k = i-6. -/
noncomputable def claimVertPos (radius : ℝ) (i : ℕ) : ℝ × ℝ × ℝ :=
  if i = 0 then (0, 0, radius)
  else if i = 11 then (0, 0, -radius)
  else if i ≤ 5 then
    (radius * Real.cos (Real.arctan 0.5) *
       Real.cos (((i - 1 : ℕ) : ℝ) * 2 * ((36 : ℝ) * (Real.pi / 180))),
     radius * Real.cos (Real.arctan 0.5) *
       Real.sin (((i - 1 : ℕ) : ℝ) * 2 * ((36 : ℝ) * (Real.pi / 180))),
     radius * Real.sin (Real.arctan 0.5))
  else
    (radius * Real.cos (Real.arctan 0.5) *
       Real.cos ((((i - 6 : ℕ) : ℝ) * 2 - 1) * ((36 : ℝ) * (Real.pi / 180))),
     radius * Real.cos (Real.arctan 0.5) *
       Real.sin ((((i - 6 : ℕ) : ℝ) * 2 - 1) * ((36 : ℝ) * (Real.pi / 180))),
     -(radius * Real.sin (Real.arctan 0.5)))

/-- Euclidean norm of a position triple. -/
noncomputable def norm3 (p : ℝ × ℝ × ℝ) : ℝ :=
  Real.sqrt (p.1 ^ 2 + p.2.1 ^ 2 + p.2.2 ^ 2)

/-- The vertex indices of a face's three corners, each read through the
shared corner reference, in corner order. -/
def Icosahedron.faceCornerIndices (m : Icosahedron) (f : Face) : List ℕ :=
  [(m.vertAt f.corner.1).get_index, (m.vertAt f.corner.2.1).get_index,
   (m.vertAt f.corner.2.2).get_index]

/-- The number of faces of which vertex index i is a corner. -/
def Icosahedron.cornerFaceCount (m : Icosahedron) (i : ℕ) : ℕ :=
  (m.faces.filter (fun f => decide (i ∈ m.faceCornerIndices f))).length

/-! Helper lemmas shared by the claim theorems. -/

/-- The index buffer of a freshly constructed mesh, evaluated: position
data never enters the computation, so this holds for every radius. -/
theorem index_buffer_eq (r : ℝ) : (Icosahedron.new r).get_index_buffer =
    [2, 1, 0, 3, 2, 0, 4, 3, 0, 5, 4, 0, 1, 5, 0,
     7, 6, 1, 7, 1, 2, 8, 7, 2, 8, 2, 3, 9, 8, 3,
     9, 3, 4, 10, 9, 4, 10, 4, 5, 6, 10, 5, 6, 5, 1,
     6, 7, 11, 7, 8, 11, 8, 9, 11, 9, 10, 11, 10, 6, 11] := rfl

/-- The constructed vertex positions agree with the claim's formulas. -/
theorem vertPosAt_eq_claim (r : ℝ) (i : ℕ) (hi : i < 12) :
    (Icosahedron.new r).vertPosAt i = claimVertPos r i := by
  interval_cases i <;> rfl

/-- The Icosphere point positions agree with the claim's formulas. -/
theorem icospherePoint_eq_claim (r : ℝ) (i : ℕ) (hi : i < 12) :
    (icospherePoint r i).pos = claimVertPos r i := by
  interval_cases i <;> rfl

/-- Vertex 1 of the radius-5 mesh sits at longitude zero on the upper
ring: (ring radius, 0, ring height). -/
theorem vertex_one_concrete : (Icosahedron.new 5).vertPosAt 1 =
    (5 * Real.cos (Real.arctan 0.5), 0, 5 * Real.sin (Real.arctan 0.5)) := by
  have h : (Icosahedron.new 5).vertPosAt 1 = claimVertPos 5 1 := rfl
  rw [h]
  simp [claimVertPos]

/-- Square root of a sum of squares known to equal a square. -/
theorem sqrt_sq_of_eq (r x y z : ℝ) (hr : 0 ≤ r) (h : x ^ 2 + y ^ 2 + z ^ 2 = r ^ 2) :
    Real.sqrt (x ^ 2 + y ^ 2 + z ^ 2) = r := by
  rw [h, Real.sqrt_sq hr]

/-- Every position the claim formulas produce lies on the sphere of the
construction radius. -/
theorem claimVertPos_norm (r : ℝ) (hr : 0 ≤ r) (i : ℕ) :
    norm3 (claimVertPos r i) = r := by
  unfold claimVertPos norm3
  split_ifs with h0 h11 h5
  · dsimp only
    norm_num [Real.sqrt_sq hr]
  · dsimp only
    norm_num [neg_sq, Real.sqrt_sq hr]
  · dsimp only
    exact sqrt_sq_of_eq r _ _ _ hr (by
      linear_combination (r ^ 2 * Real.cos (Real.arctan 0.5) ^ 2) *
          Real.sin_sq_add_cos_sq (((i - 1 : ℕ) : ℝ) * 2 * ((36 : ℝ) * (Real.pi / 180))) +
        r ^ 2 * Real.sin_sq_add_cos_sq (Real.arctan 0.5))
  · dsimp only
    exact sqrt_sq_of_eq r _ _ _ hr (by
      linear_combination (r ^ 2 * Real.cos (Real.arctan 0.5) ^ 2) *
          Real.sin_sq_add_cos_sq ((((i - 6 : ℕ) : ℝ) * 2 - 1) * ((36 : ℝ) * (Real.pi / 180))) +
        r ^ 2 * Real.sin_sq_add_cos_sq (Real.arctan 0.5))

/-- After set_coords on slot i, the vertex buffer holds the new position
at slot i. -/
theorem setCoords_buf (r x y z : ℝ) (i : ℕ) (hi : i < 12) :
    ((Icosahedron.new r).setCoords i x y z).get_vertex_buffer[i]? =
      some { position := (x, y, z), color := (1, 1, 1) } := by
  have hlen : (Icosahedron.new r).verts.length = 12 := rfl
  unfold Icosahedron.get_vertex_buffer Icosahedron.setCoords
  rw [List.getElem?_map, List.getElem?_set_eq_of_lt _ (by rw [hlen]; exact hi)]
  rfl

/-- After set_coords on slot i, every holder of a reference to slot i
observes the new position. -/
theorem setCoords_pos (r x y z : ℝ) (i : ℕ) (hi : i < 12) :
    ((Icosahedron.new r).setCoords i x y z).vertPosAt i = (x, y, z) := by
  have hlen : (Icosahedron.new r).verts.length = 12 := rfl
  unfold Icosahedron.vertPosAt Icosahedron.vertAt Icosahedron.setCoords
  simp only [List.getD_eq_getElem?_getD, List.getElem?_set_eq_of_lt _ (by rw [hlen]; exact hi)]
  rfl

/-- set_coords on slot i leaves the observed position of every other slot
unchanged. -/
theorem setCoords_other (r x y z : ℝ) (i j : ℕ) (hj : j ≠ i) :
    ((Icosahedron.new r).setCoords i x y z).vertPosAt j = (Icosahedron.new r).vertPosAt j := by
  unfold Icosahedron.vertPosAt Icosahedron.vertAt Icosahedron.setCoords
  simp only [List.getD_eq_getElem?_getD, List.getElem?_set_ne (by omega : i ≠ j)]

/-- set_coords on slot i leaves the vertex buffer at every other slot
unchanged. -/
theorem setCoords_buf_other (r x y z : ℝ) (i j : ℕ) (hj : j ≠ i) :
    ((Icosahedron.new r).setCoords i x y z).get_vertex_buffer[j]? =
      (Icosahedron.new r).get_vertex_buffer[j]? := by
  unfold Icosahedron.get_vertex_buffer Icosahedron.setCoords
  rw [List.getElem?_map, List.getElem?_map, List.getElem?_set_ne (by omega : i ≠ j)]

/-- set_coords never changes the construction-time index read through any
shared vertex reference. -/
theorem vertAt_index_setCoords (m : Icosahedron) (i : ℕ) (x y z : ℝ) (k : ℕ) :
    ((m.setCoords i x y z).vertAt k).get_index = (m.vertAt k).get_index := by
  unfold Vert.get_index Icosahedron.vertAt Icosahedron.setCoords
  simp only [List.getD_eq_getElem?_getD]
  rcases eq_or_ne i k with h | h
  · subst h
    rcases Nat.lt_or_ge i m.verts.length with hlt | hge
    · rw [List.getElem?_set_eq_of_lt _ hlt]
      have hsome : m.verts[i]? = some m.verts[i] := List.getElem?_eq_getElem hlt
      rw [hsome]
      simp [Vert.set_coords, List.getD, List.getD_eq_getElem?_getD, hsome]
    · rw [List.set_eq_of_length_le hge]
  · rw [List.getElem?_set_ne h]

/-- set_coords never changes the index buffer. -/
theorem get_index_buffer_setCoords (m : Icosahedron) (i : ℕ) (x y z : ℝ) :
    (m.setCoords i x y z).get_index_buffer = m.get_index_buffer := by
  unfold Icosahedron.get_index_buffer
  have hfaces : (m.setCoords i x y z).faces = m.faces := rfl
  rw [hfaces]
  simp only [vertAt_index_setCoords m i x y z]

/-- No sequence of mutations changes the index buffer. -/
theorem get_index_buffer_applyMutations (ms : List (ℕ × ℝ × ℝ × ℝ)) (m : Icosahedron) :
    (m.applyMutations ms).get_index_buffer = m.get_index_buffer := by
  induction ms generalizing m with
  | nil => rfl
  | cons head rest ih =>
    obtain ⟨i, x, y, z⟩ := head
    rw [Icosahedron.applyMutations, ih, get_index_buffer_setCoords]

/-! The claims. -/

/-- C1: the claim that every face's three referenced edges have endpoint
sets equal to the three pairwise combinations of its corners FAILS on the
code: the edge table constructs all 30 edges with endpoints (0, 1), so at
face slot 0 of the radius-5 mesh (corners 2, 1, 0) the referenced edges
contribute the pairs (0,1), (0,1), (0,1) instead of (1,2), (0,1), (0,2).
The code contradicts its own band comments on the edge table and the face
table's side indices, which were laid out for the banded edges. -/
theorem face_edge_endpoints_all_stubbed :
    (Icosahedron.new 5).edges.map Edge.endpoint = List.replicate 30 (0, 1) ∧
    (Icosahedron.new 5).faceEdgePairs (icoFace 0) = [(0, 1), (0, 1), (0, 1)] ∧
    (Icosahedron.new 5).faceCornerPairs (icoFace 0) = [(1, 2), (0, 1), (0, 2)] ∧
    ¬ Icosahedron.faceEdgesMatchCorners (Icosahedron.new 5) (icoFace 0) := by
  refine ⟨rfl, rfl, rfl, ?_⟩
  decide

/-- C2: the claim that the 30 edges realize the banded structure of a
regular icosahedron FAILS on the code: every edge of the constructed mesh
has endpoints (0, 1), so even the weakened band predicate is violated, for
instance at edge slot 25, which the claim puts between the south pole 11
and lower-ring vertex 6. -/
theorem edge_table_has_no_band_structure :
    (Icosahedron.new 5).edges.map Edge.endpoint = List.replicate 30 (0, 1) ∧
    normPair ((Icosahedron.new 5).edgeAt 25).endpoint = (0, 1) ∧
    ¬ edgeBandClaim (Icosahedron.new 5) := by
  refine ⟨rfl, rfl, ?_⟩
  intro h
  have h25 := h.2.2.2.2 0 (by decide)
  revert h25
  decide

/-- C3 counterexample: constructing an Icosahedron with radius 0 does not
fail; it returns a complete mesh of 12 vertices, 30 edges and 20 faces
storing radius 0.  No InvalidRadius error value exists in the code. -/
theorem radius_zero_builds_full_mesh :
    (Icosahedron.new 0).verts.length = 12 ∧ (Icosahedron.new 0).edges.length = 30 ∧
    (Icosahedron.new 0).faces.length = 20 ∧ (Icosahedron.new 0).radius = 0 :=
  ⟨rfl, rfl, rfl, rfl⟩

/-- C3 amended: Icosahedron::new performs no radius validation and returns
a fully built mesh for every radius, non-positive radii included;
Icosphere::new asserts the radius is positive, so for radius ≤ 0 that
construction panics and returns no mesh at all, and for radius > 0 it
fully succeeds with its 12 base points. -/
theorem radius_validation_as_implemented (r : ℝ) :
    ((Icosahedron.new r).verts.length = 12 ∧ (Icosahedron.new r).edges.length = 30 ∧
      (Icosahedron.new r).faces.length = 20) ∧
    (r ≤ 0 → Icosphere.new r = none) ∧
    (0 < r → (Icosphere.new r).map (fun s => s.vertices.length) = some 12) := by
  refine ⟨⟨rfl, rfl, rfl⟩, ?_, ?_⟩
  · intro h
    unfold Icosphere.new
    rw [if_neg (not_lt.mpr h)]
  · intro h
    unfold Icosphere.new
    rw [if_pos h]
    simp

/-- C3 witness: at radius -1 Icosphere construction yields no mesh, and at
radius 1 it yields 12 points. -/
theorem radius_validation_as_implemented_witness :
    ((-1 : ℝ) ≤ 0 ∧ Icosphere.new (-1) = none) ∧
    ((0 : ℝ) < 1 ∧ (Icosphere.new 1).map (fun s => s.vertices.length) = some 12) :=
  ⟨⟨by norm_num, (radius_validation_as_implemented (-1)).2.1 (by norm_num)⟩,
   ⟨by norm_num, (radius_validation_as_implemented 1).2.2 (by norm_num)⟩⟩

/-- C4: for every positive radius, construction produces exactly 12 vertex
positions placed by the claimed pole and ring formulas, in both the
geometry.rs mesh and the icosphere.rs points; in particular at radius 5
vertex 0 is the north pole, vertex 11 the south pole, and vertex 1 sits at
(ring radius, 0, ring height). -/
theorem vertex_placement_matches_spec_formulas (r : ℝ) (hr : 0 < r) (i : ℕ) (hi : i < 12) :
    (Icosahedron.new r).verts.length = 12 ∧
    (Icosahedron.new r).vertPosAt i = claimVertPos r i ∧
    (icospherePoint r i).pos = claimVertPos r i ∧
    (Icosahedron.new 5).vertPosAt 0 = (0, 0, 5) ∧
    (Icosahedron.new 5).vertPosAt 11 = (0, 0, -5) ∧
    (Icosahedron.new 5).vertPosAt 1 =
      (5 * Real.cos (Real.arctan 0.5), 0, 5 * Real.sin (Real.arctan 0.5)) :=
  ⟨rfl, vertPosAt_eq_claim r i hi, icospherePoint_eq_claim r i hi, rfl, rfl,
   vertex_one_concrete⟩

/-- C4 witness: the placement theorem applied at radius 5, vertex 7. -/
theorem vertex_placement_matches_spec_formulas_witness :
    (0 : ℝ) < 5 ∧ (7 : ℕ) < 12 ∧ (Icosahedron.new 5).vertPosAt 7 = claimVertPos 5 7 :=
  ⟨by norm_num, by norm_num,
   (vertex_placement_matches_spec_formulas 5 (by norm_num) 7 (by norm_num)).2.1⟩

/-- C5: the index buffer of every constructed mesh has exactly 3 * 20 = 60
entries; the k-th consecutive triple is the corner index triple of face
slot k, and every entry is a vertex index below 12. -/
theorem index_buffer_length_triples_bounds (r : ℝ) (k : ℕ) (hk : k < 20) :
    (Icosahedron.new r).get_index_buffer.length = 3 * 20 ∧
    ((Icosahedron.new r).get_index_buffer.drop (3 * k)).take 3 =
      (Icosahedron.new r).faceCornerIndices ((Icosahedron.new r).faces.getD k default) ∧
    (∀ v ∈ (Icosahedron.new r).get_index_buffer, v < 12) := by
  refine ⟨rfl, ?_, ?_⟩
  · interval_cases k <;> rfl
  · rw [index_buffer_eq]
    decide

/-- C5 witness: the index buffer theorem applied at radius 5, face 19. -/
theorem index_buffer_length_triples_bounds_witness :
    (19 : ℕ) < 20 ∧
    ((Icosahedron.new 5).get_index_buffer.drop (3 * 19)).take 3 =
      (Icosahedron.new 5).faceCornerIndices ((Icosahedron.new 5).faces.getD 19 default) :=
  ⟨by norm_num, (index_buffer_length_triples_bounds 5 19 (by norm_num)).2.1⟩

/-- C6: every vertex index 0-11 appears in the index buffer, appears there
exactly 5 times, and is a corner of exactly 5 of the 20 faces. -/
theorem vertex_degree_five (r : ℝ) (i : ℕ) (hi : i < 12) :
    i ∈ (Icosahedron.new r).get_index_buffer ∧
    (Icosahedron.new r).get_index_buffer.count i = 5 ∧
    (Icosahedron.new r).cornerFaceCount i = 5 := by
  refine ⟨?_, ?_, ?_⟩
  · rw [index_buffer_eq]
    interval_cases i <;> decide
  · rw [index_buffer_eq]
    interval_cases i <;> decide
  · have h : (Icosahedron.new r).cornerFaceCount i = (Icosahedron.new 1).cornerFaceCount i := rfl
    rw [h]
    interval_cases i <;> decide

/-- C6 witness: the degree theorem applied at radius 5, vertex 0. -/
theorem vertex_degree_five_witness :
    (0 : ℕ) < 12 ∧ (Icosahedron.new 5).get_index_buffer.count 0 = 5 :=
  ⟨by norm_num, (vertex_degree_five 5 0 (by norm_num)).2.1⟩

/-- C7: for every positive radius, each of the 12 constructed vertex
positions has Euclidean norm equal to the radius (exactly, in the real
idealisation of the f32 arithmetic). -/
theorem vertices_on_sphere (r : ℝ) (hr : 0 < r) (i : ℕ) (hi : i < 12) :
    norm3 ((Icosahedron.new r).vertPosAt i) = r := by
  rw [vertPosAt_eq_claim r i hi]
  exact claimVertPos_norm r hr.le i

/-- C7 witness: the sphere theorem applied at radius 5, vertex 2. -/
theorem vertices_on_sphere_witness :
    (0 : ℝ) < 5 ∧ (2 : ℕ) < 12 ∧ norm3 ((Icosahedron.new 5).vertPosAt 2) = 5 :=
  ⟨by norm_num, by norm_num, vertices_on_sphere 5 (by norm_num) 2 (by norm_num)⟩

/-- C8: buffer extraction, run as a state transformer, returns the same
sequence when called twice with no mutation in between and leaves the mesh
state untouched by either call. -/
theorem buffers_idempotent_no_side_effects (m : Icosahedron) :
    m.get_vertex_buffer_run.1 = m.get_vertex_buffer_run.2.get_vertex_buffer_run.1 ∧
    m.get_vertex_buffer_run.2 = m ∧
    m.get_vertex_buffer_run.2.get_vertex_buffer_run.2 = m ∧
    m.get_index_buffer_run.1 = m.get_index_buffer_run.2.get_index_buffer_run.1 ∧
    m.get_index_buffer_run.2 = m ∧
    m.get_index_buffer_run.2.get_index_buffer_run.2 = m :=
  ⟨rfl, rfl, rfl, rfl, rfl, rfl⟩

/-- C9: after set_coords on vertex slot i of a constructed mesh, the
vertex buffer returns the new position at slot i, every face corner and
edge endpoint referencing slot i observes the same new position through
the shared reference, and every other slot is unchanged in both the
buffer and the observed positions. -/
theorem set_coords_propagates (r x y z : ℝ) (i : ℕ) (hi : i < 12) :
    ((Icosahedron.new r).setCoords i x y z).get_vertex_buffer[i]? =
      some { position := (x, y, z), color := (1, 1, 1) } ∧
    (∀ j, j < 12 → j ≠ i →
      ((Icosahedron.new r).setCoords i x y z).get_vertex_buffer[j]? =
        (Icosahedron.new r).get_vertex_buffer[j]?) ∧
    (∀ f ∈ ((Icosahedron.new r).setCoords i x y z).faces,
      ∀ c ∈ [f.corner.1, f.corner.2.1, f.corner.2.2],
        c = i → ((Icosahedron.new r).setCoords i x y z).vertPosAt c = (x, y, z)) ∧
    (∀ e ∈ ((Icosahedron.new r).setCoords i x y z).edges,
      ∀ c ∈ [e.endpoint.1, e.endpoint.2],
        c = i → ((Icosahedron.new r).setCoords i x y z).vertPosAt c = (x, y, z)) ∧
    (∀ j, j < 12 → j ≠ i →
      ((Icosahedron.new r).setCoords i x y z).vertPosAt j =
        (Icosahedron.new r).vertPosAt j) := by
  refine ⟨setCoords_buf r x y z i hi, ?_, ?_, ?_, ?_⟩
  · intro j hj hne
    exact setCoords_buf_other r x y z i j hne
  · intro f hf c hc hci
    subst hci
    exact setCoords_pos r x y z c hi
  · intro e he c hc hci
    subst hci
    exact setCoords_pos r x y z c hi
  · intro j hj hne
    exact setCoords_other r x y z i j hne

/-- C9 witness: the propagation theorem applied at radius 5, slot 4, new
position (1, 2, 3), with the frame condition checked at slot 7. -/
theorem set_coords_propagates_witness :
    (4 : ℕ) < 12 ∧
    ((Icosahedron.new 5).setCoords 4 1 2 3).get_vertex_buffer[4]? =
      some { position := (1, 2, 3), color := (1, 1, 1) } ∧
    ((Icosahedron.new 5).setCoords 4 1 2 3).vertPosAt 7 = (Icosahedron.new 5).vertPosAt 7 :=
  ⟨by norm_num, (set_coords_propagates 5 1 2 3 4 (by norm_num)).1,
   (set_coords_propagates 5 1 2 3 4 (by norm_num)).2.2.2.2 7 (by norm_num) (by norm_num)⟩

/-- C10: for every construction radius and after any sequence of
set_coords mutations, the index buffer is the same fixed 60-entry
sequence, determined solely by the constant face table and the
construction-time vertex indices. -/
theorem index_buffer_constant_under_mutation (r : ℝ) (ms : List (ℕ × ℝ × ℝ × ℝ)) :
    ((Icosahedron.new r).applyMutations ms).get_index_buffer =
      [2, 1, 0, 3, 2, 0, 4, 3, 0, 5, 4, 0, 1, 5, 0,
       7, 6, 1, 7, 1, 2, 8, 7, 2, 8, 2, 3, 9, 8, 3,
       9, 3, 4, 10, 9, 4, 10, 4, 5, 6, 10, 5, 6, 5, 1,
       6, 7, 11, 7, 8, 11, 8, 9, 11, 9, 10, 11, 10, 6, 11] := by
  rw [get_index_buffer_applyMutations, index_buffer_eq]

end PlanetGen
